import Mathlib

/-!
Shallow embedding of the MetaApp-Marketplace poll-diff-batch-publish
pipeline (TypeScript sources under src/), together with proofs of the
behavioural claims about it.  Machine numbers are modelled as `Int`
(`Option Int` where a JavaScript value can be `NaN` or `null`), strings
as `String` or `List Char`, fallible code as `Except`/`Option`, and the
stateful parts (SQLite tables, Discord side effects, the scheduler flag)
as explicit state records threaded through pure functions.
-/

namespace MetaApp

/-- Listing kind, `listing_type` in the API (src/src/types/index.ts). -/
inductive ListingType where
  | sell
  | buy
deriving DecidableEq, Inhabited

/-- An Arc Raiders item as reported by the MetaForge API
(src/src/types/index.ts, `Item`).  `item_type` is never read by the
pipeline and is omitted. -/
structure Item where
  name : String
  icon : String
  rarity : Option String
deriving DecidableEq, Inhabited

/-- User profile attached to a listing (src/src/types/index.ts). -/
structure UserProfile where
  full_name : String
  username : String
  avatar_url : Option String
  embark_id : String
deriving DecidableEq, Inhabited

/-- Raw listing from the MetaForge API (src/src/types/index.ts,
`ApiListing`).  Fields that are `T | null` in TypeScript become
`Option T`. -/
structure ApiListing where
  id : String
  listing_type : ListingType
  user_id : String
  status : String
  description : Option String
  created_at : String
  updated_at : String
  item_id : String
  item : Item
  quantity : Int
  price : Option Int
  wanted_item_id : Option String
  wanted_item : Option Item
  wanted_quantity : Option Int
  user_profile : UserProfile
deriving DecidableEq

/-- One side of a normalized listing (the `selling`/`buying` objects of
`Listing` in src/src/types/index.ts).  `id` and `amount` are `Option`
because the TypeScript non-null assertions in `transformApiListing` can
let a runtime `null` flow into these fields unchecked. -/
structure ItemSide where
  id : Option String
  amount : Option Int
  name : String
  icon : String
  rarity : Option String
deriving DecidableEq, Inhabited

/-- Normalized internal listing (src/src/types/index.ts, `Listing`). -/
structure Listing where
  id : String
  type : ListingType
  user_id : String
  status : String
  description : Option String
  created_at : String
  updated_at : String
  selling : ItemSide
  buying : ItemSide
  user_profile : UserProfile
deriving DecidableEq, Inhabited

/-! ## Listing Transform (src/unnamed/part_001, `transformApiListing`) -/

/-- The fixed currency pseudo-item synthesized when a listing has a
non-null `price` (src/unnamed/part_001 lines 64-71 and 93-100). -/
def seedsItemSide (price : Int) : ItemSide :=
  { id := some "assorted-seeds"
    amount := some price
    name := "Assorted Seeds"
    icon := "https://cdn.metaforge.app/arc-raiders/icons/assorted-seeds.webp"
    rarity := none }

/-- The side of the trade built from `item_id`/`quantity`/`item`
(src/unnamed/part_001 lines 55-61 and 84-90). -/
def mainItemSide (a : ApiListing) : ItemSide :=
  { id := some a.item_id
    amount := some a.quantity
    name := a.item.name
    icon := a.item.icon
    rarity := a.item.rarity }

/-- Barter counter-side taken verbatim from the `wanted_*` fields
(src/unnamed/part_001 lines 74-80 and 103-109).  The `id` and `amount`
fields pass through the possibly-null `wanted_item_id` and
`wanted_quantity` untouched, matching the unchecked `!` assertions. -/
def barterItemSide (a : ApiListing) (w : Item) : ItemSide :=
  { id := a.wanted_item_id
    amount := a.wanted_quantity
    name := w.name
    icon := w.icon
    rarity := w.rarity }

/-- `transformApiListing` (src/unnamed/part_001 lines 48-125).  The
result is `Except` because evaluating `apiListing.wanted_item!.name`
when `price` is null and `wanted_item` is null throws a TypeError at
runtime; every other input normalizes. -/
def transformApiListing (a : ApiListing) : Except Unit Listing :=
  let counter : Except Unit ItemSide :=
    match a.price with
    | some p => Except.ok (seedsItemSide p)
    | none =>
      match a.wanted_item with
      | some w => Except.ok (barterItemSide a w)
      | none => Except.error ()
  match counter with
  | Except.error e => Except.error e
  | Except.ok c =>
    Except.ok
      { id := a.id
        type := a.listing_type
        user_id := a.user_id
        status := a.status
        description := a.description
        created_at := a.created_at
        updated_at := a.updated_at
        selling := (match a.listing_type with
          | ListingType.sell => mainItemSide a
          | ListingType.buy => c)
        buying := (match a.listing_type with
          | ListingType.sell => c
          | ListingType.buy => mainItemSide a)
        user_profile := a.user_profile }

/-- The `listings.map(transformApiListing)` step inside
`getSellListings`/`getBuyListings` (src/unnamed/part_001 lines
160-169): a throw from any element escapes the `map`, is caught by the
surrounding catch block and rethrown, so one bad record fails the whole
fetched batch. -/
def transformApiListings : List ApiListing → Except Unit (List Listing)
  | [] => Except.ok []
  | a :: rest =>
    match transformApiListing a with
    | Except.error e => Except.error e
    | Except.ok l =>
      match transformApiListings rest with
      | Except.error e => Except.error e
      | Except.ok ls => Except.ok (l :: ls)

/-! ## Diff Engine (src/unnamed/part_001, `getNewListings`) -/

/-- `getNewListings` (src/unnamed/part_001 lines 316-334): keep the
fetched listings whose id is not in the known-id set.  The TypeScript
`Set<string>` is embedded as a `List String` queried by membership. -/
def getNewListings (fetchedListings : List Listing)
    (existingListingIds : List String) : List Listing :=
  fetchedListings.filter (fun listing => !(existingListingIds.contains listing.id))

/-! ## Batcher (src/src/bot/formatters.ts, `createListingBatches`) -/

/-- A batch of listings for one Discord message
(src/src/types/index.ts, `ListingBatch`; the `created_at : Date` field
carries no pipeline-relevant information and is omitted). -/
structure ListingBatch where
  batch_number : Nat
  listings : List Listing
deriving DecidableEq, Inhabited

/-- The `for (i = 0; i < length; i += 5)` slicing loop of
`createListingBatches` (src/src/bot/formatters.ts lines 61-76), with
`batchNumber` the running counter. -/
def createListingBatchesAux (listings : List Listing) (batchNumber : Nat) :
    List ListingBatch :=
  match listings with
  | [] => []
  | l :: rest =>
    { batch_number := batchNumber, listings := (l :: rest).take 5 }
      :: createListingBatchesAux ((l :: rest).drop 5) (batchNumber + 1)
termination_by listings.length
decreasing_by simp [List.length_drop]; omega

/-- `createListingBatches` (src/src/bot/formatters.ts lines 54-81):
chunk the listings into groups of `LISTINGS_PER_BATCH = 5`, numbering
batches from 1. -/
def createListingBatches (listings : List Listing) : List ListingBatch :=
  createListingBatchesAux listings 1

/-! ## JavaScript number/string helpers used by the formatters and the
configuration loader -/

/-- Value of a decimal digit character. -/
def digitVal (c : Char) : Nat := c.toNat - 48

/-- The decimal digit character for `n < 10`. -/
def digitChar (n : Nat) : Char := ("0123456789".toList).getD n '0'

/-- Decimal rendering of a natural number as JavaScript template
interpolation produces for a nonnegative integer position. -/
def natToChars (n : Nat) : List Char :=
  if n < 10 then [digitChar n]
  else natToChars (n / 10) ++ [digitChar (n % 10)]
termination_by n
decreasing_by exact Nat.div_lt_self (by omega) (by omega)

/-- Accumulating digit parser: consume the maximal leading run of
decimal digits, as `parseInt` does after its sign. -/
def parseDigitsAcc (acc : Nat) : List Char → Nat
  | [] => acc
  | c :: cs => if c.isDigit then parseDigitsAcc (acc * 10 + digitVal c) cs else acc

/-- Magnitude part of `parseInt`: `none` (NaN) unless the input starts
with a decimal digit. -/
def parseLeadingNat (l : List Char) : Option Nat :=
  match l with
  | [] => none
  | c :: _ => if c.isDigit then some (parseDigitsAcc 0 l) else none

/-- JavaScript `parseInt(s, 10)`: optional sign, then the maximal
leading digit run; `none` models `NaN`.  Leading-whitespace stripping
is elided because no call site in this program passes whitespace. -/
def jsParseInt (l : List Char) : Option Int :=
  match l with
  | [] => none
  | c :: rest =>
    if c = '-' then (parseLeadingNat rest).map (fun n => -(n : Int))
    else if c = '+' then (parseLeadingNat rest).map (fun n => (n : Int))
    else (parseLeadingNat (c :: rest)).map (fun n => (n : Int))

/-! ## Button custom ids (src/src/bot/formatters.ts) -/

/-- Parsed button data (src/src/types/index.ts, `ButtonData`).
`batch_position` is an `Option Int` because `parseInt` can produce
`NaN`. -/
structure ButtonData where
  action : List Char
  listing_id : List Char
  batch_position : Option Int
deriving DecidableEq

/-- The custom id `buy:listingId:position` built by `createBatchButtons`
(src/src/bot/formatters.ts line 177). -/
def buttonCustomId (listingId : List Char) (position : Nat) : List Char :=
  "buy".toList ++ (':' :: (listingId ++ (':' :: natToChars position)))

/-- The `for (i = 0; ...)` loop of `createBatchButtons`
(src/src/bot/formatters.ts lines 171-187) projected onto the custom ids
it generates; `position` starts at `i + 1 = 1`. -/
def createBatchButtonIdsAux (listings : List Listing) (position : Nat) :
    List (List Char) :=
  match listings with
  | [] => []
  | l :: rest =>
    buttonCustomId l.id.toList position :: createBatchButtonIdsAux rest (position + 1)

/-- Custom ids of the buttons `createBatchButtons` attaches to a batch
(src/src/bot/formatters.ts lines 165-193). -/
def createBatchButtonIds (batch : ListingBatch) : List (List Char) :=
  createBatchButtonIdsAux batch.listings 1

/-- String split at every occurrence of `sep`, as JavaScript
`customId.split(':')` does (the result is never empty and contains the
empty slice between two adjacent separators). -/
def splitOnChar (sep : Char) : List Char → List (List Char)
  | [] => [[]]
  | c :: rest =>
    let r := splitOnChar sep rest
    if c = sep then [] :: r
    else (c :: r.headD []) :: r.tail

/-- `parseButtonCustomId` (src/src/bot/formatters.ts lines 200-218):
split on `:`; require exactly three parts with first part `buy`; the
position is `parseInt(parts[2], 10)`. -/
def parseButtonCustomId (customId : List Char) : Option ButtonData :=
  let parts := splitOnChar ':' customId
  if parts.length = 3 ∧ parts.getD 0 [] = "buy".toList then
    some { action := "buy".toList
           listing_id := parts.getD 1 []
           batch_position := jsParseInt (parts.getD 2 []) }
  else none

/-! ## Configuration loading (src/src/utils/config.ts, `loadConfig`) -/

/-- The poll-interval computation of `loadConfig`
(src/src/utils/config.ts lines 46 and 61-66, 74-76): the value stored
in `config.polling.interval` is `parseInt(process.env.POLL_INTERVAL ||
'5000', 10)` — the range check at lines 61-66 only logs a warning and
never replaces the value.  `none` models both an absent variable and
(in the result) `NaN`. -/
def loadPollInterval (envPollInterval : Option String) : Option Int :=
  let raw : String :=
    match envPollInterval with
    | none => "5000"
    | some v => if v = "" then "5000" else v
  jsParseInt raw.toList

/-! ## Persistence store (src/src/database/db.ts, tables from
src/src/bot/formatters.ts schema section) -/

/-- A row of the `listings` table: the listing columns plus the
`posted_to_discord` flag (`fetched_at` carries no pipeline-relevant
information and is omitted). -/
structure DbRow where
  listing : Listing
  posted_to_discord : Bool
deriving DecidableEq

/-- A row of the `posted_listings` table (src/src/types/index.ts,
`DbPostedListing`; `posted_at` omitted as time is not modelled). -/
structure PostedRow where
  listing_id : String
  message_id : String
  channel_id : String
  batch_number : Nat
  batch_position : Nat
deriving DecidableEq

/-- The two tables the pipeline reads and writes. -/
structure DbState where
  listings : List DbRow
  posted : List PostedRow
deriving DecidableEq

/-- `listingExists` (src/src/database/db.ts lines 280-286). -/
def listingExists (db : DbState) (listingId : String) : Bool :=
  db.listings.any (fun r => r.listing.id == listingId)

/-- `getListingById` (src/src/database/db.ts lines 293-304). -/
def getListingById (db : DbState) (listingId : String) : Option Listing :=
  (db.listings.find? (fun r => r.listing.id == listingId)).map (fun r => r.listing)

/-- `insertListing` (src/src/database/db.ts lines 188-228): INSERT with
`posted_to_discord = 0`; a primary-key violation is swallowed and
reported as `false`. -/
def insertListing (db : DbState) (l : Listing) : DbState × Bool :=
  if listingExists db l.id then (db, false)
  else ({ db with listings := db.listings ++ [{ listing := l, posted_to_discord := false }] }, true)

/-- `insertListings` (src/src/database/db.ts lines 235-249). -/
def insertListings (db : DbState) (ls : List Listing) : DbState :=
  match ls with
  | [] => db
  | l :: rest => insertListings (insertListing db l).1 rest

/-- `markListingsAsPosted` (src/src/database/db.ts lines 327-339):
`UPDATE listings SET posted_to_discord = 1 WHERE id IN (...)`. -/
def markListingsAsPosted (db : DbState) (listingIds : List String) : DbState :=
  { db with
    listings := db.listings.map (fun r =>
      if listingIds.contains r.listing.id then { r with posted_to_discord := true } else r) }

/-- `insertPostedListing` (src/src/database/db.ts lines 349-381):
INSERT into `posted_listings`; a duplicate key for `listing_id` is a
benign no-op. -/
def insertPostedListing (db : DbState) (p : PostedRow) : DbState :=
  if db.posted.any (fun q => q.listing_id == p.listing_id) then db
  else { db with posted := db.posted ++ [p] }

/-- Modelled from the spec: `setStatus(id, status, updatedAt)` of the
persistence store (spec section 6) — `updateListingStatus` is imported
and called by src/src/index.ts line 83 but its implementation is not
under src/.  It updates the `status` and `updated_at` columns of the
row with the given id. -/
def updateListingStatus (db : DbState) (listingId status updatedAt : String) : DbState :=
  { db with
    listings := db.listings.map (fun r =>
      if r.listing.id == listingId then
        { r with listing := { r.listing with status := status, updated_at := updatedAt } }
      else r) }

/-- Modelled from the spec: `listAll() -> list<(Listing, DeliveryRecord)>`
of the persistence store (spec sections 4.4 and 6) — `getPostedListings`
is imported and called by src/src/index.ts line 56 but its
implementation is not under src/.  It joins every `posted_listings` row
with its listing. -/
def getPostedListings (db : DbState) : List (Listing × PostedRow) :=
  db.posted.filterMap (fun p => (getListingById db p.listing_id).map (fun l => (l, p)))

/-! ## Discord transport (src/src/bot/discord.ts) -/

/-- The observable Discord environment a cycle runs against:
`channels` are the channel ids that `client.channels.fetch` resolves to
a text-based channel (a missing or non-text channel is the same
observable failure), `messages` the message ids `messages.fetch`
finds, and `sendResult` gives the message id Discord assigns to the
send of a given batch number, `none` meaning the send throws. -/
structure DiscordEnv where
  channels : List String
  messages : List String
  sendResult : Nat → Option String

/-- An `message.edit` request actually issued to Discord, carrying the
regenerated embed's listing roster (src/src/bot/discord.ts lines
397-407, `recreateBatchEmbed`). -/
structure EditRequest where
  message_id : String
  batch_number : Nat
  listings : List Listing
deriving DecidableEq

/-- The `insertPostedListing` loop of `postBatchToDiscord`
(src/src/bot/discord.ts lines 257-271), positions starting at
`i + 1 = 1`. -/
def insertPostedRows (db : DbState) (listings : List Listing)
    (messageId channelId : String) (batchNumber position : Nat) : DbState :=
  match listings with
  | [] => db
  | l :: rest =>
    insertPostedRows
      (insertPostedListing db
        { listing_id := l.id, message_id := messageId, channel_id := channelId,
          batch_number := batchNumber, batch_position := position })
      rest messageId channelId batchNumber (position + 1)

/-- `postBatchToDiscord` (src/src/bot/discord.ts lines 220-294):
returns `none` when the channel is missing/not text-based or the send
throws (the catch block turns the throw into `null`); only after a
successful send does it record the posted rows and mark the listings
as posted. -/
def postBatchToDiscord (db : DbState) (batch : ListingBatch)
    (channelId : String) (env : DiscordEnv) : DbState × Option String :=
  if !(env.channels.contains channelId) then (db, none)
  else
    match env.sendResult batch.batch_number with
    | none => (db, none)
    | some messageId =>
      let db1 := insertPostedRows db batch.listings messageId channelId batch.batch_number 1
      let db2 := markListingsAsPosted db1 (batch.listings.map (fun l => l.id))
      (db2, some messageId)

/-- The sequential batch loop of `postListingsToDiscord`
(src/src/bot/discord.ts lines 323-336); the fixed 500 ms inter-batch
delay is untimed here.  Returns the updated store, the message ids of
the successful sends in order, and the success count. -/
def postBatchesLoop (db : DbState) (batches : List ListingBatch)
    (channelId : String) (env : DiscordEnv) : DbState × List String × Nat :=
  match batches with
  | [] => (db, [], 0)
  | b :: rest =>
    let step := postBatchToDiscord db b channelId env
    let tail := postBatchesLoop step.1 rest channelId env
    match step.2 with
    | some m => (tail.1, m :: tail.2.1, tail.2.2 + 1)
    | none => (tail.1, tail.2.1, tail.2.2)

/-- `postListingsToDiscord` (src/src/bot/discord.ts lines 304-344). -/
def postListingsToDiscord (db : DbState) (listings : List Listing)
    (channelId : String) (env : DiscordEnv) : DbState × List String × Nat :=
  if listings.isEmpty then (db, [], 0)
  else postBatchesLoop db (createListingBatches listings) channelId env

/-- `updateMessageWithStatus` (src/src/bot/discord.ts lines 356-415):
fetch channel and message (failure → no edit), refetch the given
listing ids from the store, and issue one edit whose embed is
regenerated from exactly those listings; `none` means no edit request
was issued. -/
def updateMessageWithStatus (db : DbState) (messageId channelId : String)
    (listingIds : List String) (batchNumber : Nat) (env : DiscordEnv) :
    Option EditRequest :=
  if !(env.channels.contains channelId) then none
  else if !(env.messages.contains messageId) then none
  else
    let updatedListings := listingIds.filterMap (fun id => getListingById db id)
    if updatedListings.isEmpty then none
    else some { message_id := messageId, batch_number := batchNumber, listings := updatedListings }

/-! ## Status-change scan (src/src/index.ts, `checkStatusChanges`) -/

/-- Per-message accumulator of `checkStatusChanges`
(src/src/index.ts lines 64-68): channel, batch number and the
(id, position) pairs of the listings pushed for this message. -/
structure GroupData where
  channel_id : String
  batch_number : Nat
  items : List (String × Nat)
deriving DecidableEq

/-- Lookup in the JavaScript `Map` built from the fetched listings
(src/src/index.ts line 157): on duplicate ids the last insertion
wins. -/
def fetchedMapGet (fetched : List Listing) (id : String) : Option Listing :=
  fetched.reverse.find? (fun l => l.id == id)

/-- Insertion into the insertion-ordered `messageGroups` map
(src/src/index.ts lines 87-98): push the item onto an existing group
for the message id, or append a fresh group. -/
def groupInsert (groups : List (String × GroupData)) (msgId chId : String)
    (batchNo : Nat) (item : String × Nat) : List (String × GroupData) :=
  match groups with
  | [] => [(msgId, { channel_id := chId, batch_number := batchNo, items := [item] })]
  | (k, g) :: rest =>
    if k = msgId then (k, { g with items := g.items ++ [item] }) :: rest
    else (k, g) :: groupInsert rest msgId chId batchNo item

/-- The per-posted-listing loop of `checkStatusChanges`
(src/src/index.ts lines 73-100): for each tracked delivered listing
whose current fetch shows a different status, persist the new status
and push (id, position) into that message's group.  Only the changed
listings are pushed. -/
def scanStatusLoop (entries : List (Listing × PostedRow)) (fetched : List Listing)
    (db : DbState) (groups : List (String × GroupData)) :
    DbState × List (String × GroupData) :=
  match entries with
  | [] => (db, groups)
  | (l, p) :: rest =>
    match fetchedMapGet fetched l.id with
    | some api =>
      if api.status ≠ l.status then
        scanStatusLoop rest fetched
          (updateListingStatus db l.id api.status api.updated_at)
          (groupInsert groups p.message_id p.channel_id p.batch_number (l.id, p.batch_position))
      else scanStatusLoop rest fetched db groups
    | none => scanStatusLoop rest fetched db groups

/-- Stable insertion of an (id, position) pair into a
position-ascending list; `groupData.listings.sort((a, b) =>
a.position - b.position)` at src/src/index.ts line 112. -/
def insertByPosition (x : String × Nat) : List (String × Nat) → List (String × Nat)
  | [] => [x]
  | y :: ys => if x.2 < y.2 then x :: y :: ys else y :: insertByPosition x ys

/-- Sort the pushed items of a group by batch position ascending. -/
def sortByPosition : List (String × Nat) → List (String × Nat)
  | [] => []
  | x :: xs => insertByPosition x (sortByPosition xs)

/-- `checkStatusChanges` (src/src/index.ts lines 51-130): scan all
tracked delivered listings against the fetch, persist every changed
status, then issue one edit per affected message using only the ids
collected for that message (sorted by position).  Returns the updated
store and the edit requests actually issued. -/
def checkStatusChanges (db : DbState) (fetched : List Listing) (env : DiscordEnv) :
    DbState × List EditRequest :=
  let scan := scanStatusLoop (getPostedListings db) fetched db []
  match scan.2 with
  | [] => (scan.1, [])
  | groups =>
    (scan.1,
      groups.filterMap (fun mg =>
        updateMessageWithStatus scan.1 mg.1 mg.2.channel_id
          ((sortByPosition mg.2.items).map (fun it => it.1)) mg.2.batch_number env))

/-! ## Poll Scheduler / Orchestrator (src/src/index.ts, `pollListings`) -/

/-- One tick's external input: the outcome of `getAllListings` (which
rethrows network errors) and the Discord environment the cycle runs
against, together with the configured target channel. -/
structure PollInput where
  fetchResult : Except String (List Listing)
  configChannelId : String
  env : DiscordEnv

/-- Whole-process state the scheduler mutates: the store, the
`isProcessing` overlap guard, and the outward Discord traffic
accumulated so far (edits issued and message ids of posted batches). -/
structure World where
  db : DbState
  isProcessing : Bool
  editsSent : List EditRequest
  batchesSent : List String

/-- The try-block body of `pollListings` (src/src/index.ts lines
146-214): a fetch error is caught at the cycle boundary leaving all
state untouched; otherwise run the status scan, diff against persisted
ids, fast-path out when nothing is new, else persist the new listings
and deliver them in batches. -/
def pollCycleBody (w : World) (inp : PollInput) : World :=
  match inp.fetchResult with
  | Except.error _ => w
  | Except.ok fetched =>
    let check := checkStatusChanges w.db fetched inp.env
    let w1 := { w with db := check.1, editsSent := w.editsSent ++ check.2 }
    let existingIds := (fetched.filter (fun l => listingExists check.1 l.id)).map (fun l => l.id)
    let newListings := getNewListings fetched existingIds
    if newListings.isEmpty then w1
    else
      let db2 := insertListings w1.db newListings
      let post := postListingsToDiscord db2 newListings inp.configChannelId inp.env
      { w1 with db := post.1, batchesSent := w1.batchesSent ++ post.2.1 }

/-- `pollListings` (src/src/index.ts lines 136-228): skip the tick
outright while `isProcessing` is set; otherwise set the guard, run the
cycle body (whose failures are caught at the boundary), and clear the
guard in the `finally` block on every path. -/
def pollListings (w : World) (inp : PollInput) : World :=
  if w.isProcessing then w
  else
    let w1 := pollCycleBody { w with isProcessing := true } inp
    { w1 with isProcessing := false }

/-! ## Theorems -/

/-- C1: `getNewListings` returns exactly the fetched listings whose id
is not among the known ids, as an order-preserving sublist of the
fetch, and rerunning it with the known ids extended by the result's
ids returns the empty list. -/
theorem getNewListings_correct (F : List Listing) (K : List String) :
    (getNewListings F K).Sublist F
    ∧ (∀ l, l ∈ getNewListings F K ↔ l ∈ F ∧ l.id ∉ K)
    ∧ getNewListings F (K ++ (getNewListings F K).map (fun l => l.id)) = [] := by
  refine ⟨List.filter_sublist F, fun l => ?_, ?_⟩
  · simp [getNewListings, List.mem_filter]
  · rw [getNewListings, List.filter_eq_nil_iff]
    intro a ha
    simp only [Bool.not_eq_true', Bool.not_eq_false, List.elem_iff, List.mem_append]
    by_cases hK : a.id ∈ K
    · exact Or.inl hK
    · refine Or.inr ?_
      have : a ∈ getNewListings F K := by
        simp [getNewListings, List.mem_filter, ha, hK]
      exact List.mem_map.mpr ⟨a, this, rfl⟩

theorem createListingBatchesAux_flatten (l : List Listing) (k : Nat) :
    ((createListingBatchesAux l k).map (fun b => b.listings)).flatten = l := by
  induction l, k using createListingBatchesAux.induct with
  | case1 k => simp [createListingBatchesAux]
  | case2 k x rest ih =>
    rw [createListingBatchesAux]
    simp only [List.map_cons, List.flatten_cons]
    rw [ih]
    exact List.take_append_drop 5 (x :: rest)

theorem createListingBatchesAux_length (l : List Listing) (k : Nat) :
    (createListingBatchesAux l k).length = (l.length + 4) / 5 := by
  induction l, k using createListingBatchesAux.induct with
  | case1 k => simp [createListingBatchesAux]
  | case2 k x rest ih =>
    rw [createListingBatchesAux]
    simp only [List.length_cons, ih, List.length_drop]
    omega

theorem createListingBatchesAux_sizes (l : List Listing) (k : Nat) :
    ∀ b ∈ createListingBatchesAux l k, 1 ≤ b.listings.length ∧ b.listings.length ≤ 5 := by
  induction l, k using createListingBatchesAux.induct with
  | case1 k => simp [createListingBatchesAux]
  | case2 k x rest ih =>
    rw [createListingBatchesAux]
    intro b hb
    rcases List.mem_cons.mp hb with h | h
    · subst h
      simp only [List.length_take, List.length_cons]
      omega
    · exact ih b h

theorem createListingBatchesAux_full (l : List Listing) (k : Nat) :
    ∀ i, i + 1 < (createListingBatchesAux l k).length →
      ((createListingBatchesAux l k).getD i default).listings.length = 5 := by
  induction l, k using createListingBatchesAux.induct with
  | case1 k => intro i h; simp [createListingBatchesAux] at h
  | case2 k x rest ih =>
    intro i h
    rw [createListingBatchesAux] at h ⊢
    match i with
    | 0 =>
      have hlen : 0 < (createListingBatchesAux ((x :: rest).drop 5) (k + 1)).length := by
        simpa using h
      have hdrop : ((x :: rest).drop 5).length ≠ 0 := by
        intro h0
        rw [createListingBatchesAux_length, h0] at hlen
        omega
      simp only [List.length_drop, List.length_cons] at hdrop
      simp only [List.getD_cons_zero, List.length_take, List.length_cons]
      omega
    | i + 1 =>
      have h' : i + 1 < (createListingBatchesAux ((x :: rest).drop 5) (k + 1)).length := by
        simpa using h
      simpa using ih i h'

theorem createListingBatchesAux_numbers (l : List Listing) (k : Nat) :
    (createListingBatchesAux l k).map (fun b => b.batch_number)
      = List.range' k (createListingBatchesAux l k).length := by
  induction l, k using createListingBatchesAux.induct with
  | case1 k => simp [createListingBatchesAux]
  | case2 k x rest ih =>
    rw [createListingBatchesAux]
    simp only [List.map_cons, List.length_cons, List.range'_succ, ih]

/-- C2: `createListingBatches` splits N listings into `ceil(N/5)`
contiguous batches whose concatenation is the input, every batch holds
1..5 listings, every batch but possibly the last holds exactly 5, and
the batch numbers run 1, 2, ... in creation order. -/
theorem createListingBatches_correct (listings : List Listing) :
    (createListingBatches listings).length = (listings.length + 4) / 5
    ∧ ((createListingBatches listings).map (fun b => b.listings)).flatten = listings
    ∧ (∀ b ∈ createListingBatches listings,
        1 ≤ b.listings.length ∧ b.listings.length ≤ 5)
    ∧ (∀ i, i + 1 < (createListingBatches listings).length →
        ((createListingBatches listings).getD i default).listings.length = 5)
    ∧ (createListingBatches listings).map (fun b => b.batch_number)
        = List.range' 1 (createListingBatches listings).length :=
  ⟨createListingBatchesAux_length listings 1,
   createListingBatchesAux_flatten listings 1,
   createListingBatchesAux_sizes listings 1,
   createListingBatchesAux_full listings 1,
   createListingBatchesAux_numbers listings 1⟩

/-- The counter-side of a normalized listing: what the creator wants
back for sell-type records (`buying`), what they offer for buy-type
records (`selling`). -/
def counterSide (a : ApiListing) (l : Listing) : ItemSide :=
  match a.listing_type with
  | ListingType.sell => l.buying
  | ListingType.buy => l.selling

/-- C4: normalization settles the counter-side by the price rule — a
non-null `price` synthesizes the fixed `assorted-seeds` currency
pseudo-item with amount equal to the price, and a null `price` with a
present `wanted_item` copies the wanted-item fields verbatim. -/
theorem transformApiListing_settlement (a : ApiListing) :
    (∀ p, a.price = some p →
      ∃ l, transformApiListing a = Except.ok l
        ∧ (counterSide a l).id = some "assorted-seeds"
        ∧ (counterSide a l).name = "Assorted Seeds"
        ∧ (counterSide a l).icon
            = "https://cdn.metaforge.app/arc-raiders/icons/assorted-seeds.webp"
        ∧ (counterSide a l).amount = some p)
    ∧ (∀ w, a.price = none → a.wanted_item = some w →
      ∃ l, transformApiListing a = Except.ok l
        ∧ (counterSide a l).id = a.wanted_item_id
        ∧ (counterSide a l).amount = a.wanted_quantity
        ∧ (counterSide a l).name = w.name
        ∧ (counterSide a l).icon = w.icon) := by
  constructor
  · intro p hp
    cases ht : a.listing_type <;>
      simp [transformApiListing, counterSide, hp, ht, seedsItemSide]
  · intro w hp hw
    cases ht : a.listing_type <;>
      simp [transformApiListing, counterSide, hp, hw, ht, barterItemSide]

/-- Concrete well-formed API records used as witnesses and failing
inputs: a sell-type record priced in seeds, ... -/
def apiSeedSell : ApiListing :=
  { id := "L1"
    listing_type := ListingType.sell
    user_id := "u1"
    status := "active"
    description := none
    created_at := "2025-01-01T00:00:00Z"
    updated_at := "2025-01-01T00:00:00Z"
    item_id := "iron-scrap"
    item := { name := "Iron Scrap", icon := "https://cdn.example/iron.webp", rarity := some "common" }
    quantity := 3
    price := some 120
    wanted_item_id := none
    wanted_item := none
    wanted_quantity := none
    user_profile := { full_name := "Alice A", username := "alice#1", avatar_url := none, embark_id := "alice-e#1" } }

/-- ... a buy-type barter record with the wanted side populated, ... -/
def apiBarterBuy : ApiListing :=
  { apiSeedSell with
    id := "L2"
    listing_type := ListingType.buy
    price := none
    wanted_item_id := some "wolfpack-recipe"
    wanted_item := some { name := "Wolfpack Recipe", icon := "https://cdn.example/wolf.webp", rarity := some "epic" }
    wanted_quantity := some 1 }

/-- ... and a malformed record: null price with all barter fields
missing. -/
def apiMalformed : ApiListing :=
  { apiSeedSell with
    id := "L3"
    price := none
    wanted_item_id := none
    wanted_item := none
    wanted_quantity := none }

/-- Witness for C4 at the concrete records. -/
theorem transformApiListing_settlement_witness :
    (apiSeedSell.price = some 120
      ∧ ∃ l, transformApiListing apiSeedSell = Except.ok l
          ∧ (counterSide apiSeedSell l).id = some "assorted-seeds"
          ∧ (counterSide apiSeedSell l).name = "Assorted Seeds"
          ∧ (counterSide apiSeedSell l).icon
              = "https://cdn.metaforge.app/arc-raiders/icons/assorted-seeds.webp"
          ∧ (counterSide apiSeedSell l).amount = some 120)
    ∧ (apiBarterBuy.price = none
      ∧ ∃ l, transformApiListing apiBarterBuy = Except.ok l
          ∧ (counterSide apiBarterBuy l).id = apiBarterBuy.wanted_item_id
          ∧ (counterSide apiBarterBuy l).amount = apiBarterBuy.wanted_quantity) := by
  refine ⟨⟨by decide, (transformApiListing_settlement apiSeedSell).1 120 (by decide)⟩,
          ⟨by decide, ?_⟩⟩
  obtain ⟨l, h1, h2, h3, _, _⟩ :=
    (transformApiListing_settlement apiBarterBuy).2
      { name := "Wolfpack Recipe", icon := "https://cdn.example/wolf.webp", rarity := some "epic" }
      (by decide) (by decide)
  exact ⟨l, h1, h2, h3⟩

/-- C5 (code bug): a single malformed record (null price, missing
barter fields) makes the whole `map(transformApiListing)` throw, which
`getSellListings` catches and rethrows — the well-formed records of the
batch are discarded rather than returned. -/
theorem transformApiListings_batch_fails :
    (transformApiListing apiSeedSell).isOk = true
    ∧ transformApiListings [apiSeedSell, apiMalformed] = Except.error ()
    ∧ ∀ ls, transformApiListings [apiSeedSell, apiMalformed] ≠ Except.ok ls := by
  refine ⟨rfl, rfl, ?_⟩
  intro ls h
  rw [show transformApiListings [apiSeedSell, apiMalformed] = Except.error () from rfl] at h
  exact Except.noConfusion h

/-- C9 (code bug): `loadConfig` keeps an out-of-range or non-numeric
`POLL_INTERVAL` instead of falling back to the default 5000 ms — the
range check only logs.  `"500"` yields 500 and a non-numeric value
yields NaN, while an absent variable does default to 5000. -/
theorem loadPollInterval_keeps_invalid :
    loadPollInterval (some "500") = some 500
    ∧ loadPollInterval (some "abc") = none
    ∧ loadPollInterval none = some 5000
    ∧ loadPollInterval (some "500") ≠ some 5000 := by
  refine ⟨rfl, rfl, rfl, ?_⟩
  intro h
  rw [show loadPollInterval (some "500") = some 500 from rfl] at h
  exact absurd (Option.some.inj h) (by decide)

/-- C6: a tick that fires while the previous cycle is still running
(`isProcessing` set) is a pure no-op: no store write, no delivery, no
tracker write, nothing changes. -/
theorem pollListings_skips_when_processing (w : World) (inp : PollInput)
    (h : w.isProcessing = true) : pollListings w inp = w := by
  simp [pollListings, h]

/-- C7: a cycle that actually runs always ends with the guard back at
`Idle`, and a fetch error is caught at the cycle boundary: the tick
returns normally with every component of the state unchanged. -/
theorem pollListings_always_resets (w : World) (inp : PollInput)
    (h : w.isProcessing = false) :
    (pollListings w inp).isProcessing = false
    ∧ ∀ e, inp.fetchResult = Except.error e → pollListings w inp = w := by
  constructor
  · simp [pollListings, h]
  · intro e he
    cases w with
    | mk db ip es bs =>
      simp only [World.mk.injEq] at h ⊢
      subst h
      simp [pollListings, pollCycleBody, he]

/-- C8: when `postBatchToDiscord` fails (channel missing/not
text-based, or the send throws), the store is returned untouched — no
listing of the batch is marked posted and no tracker row is created —
and the result is `null`. -/
theorem postBatchToDiscord_failure_writes_nothing (db : DbState)
    (batch : ListingBatch) (channelId : String) (env : DiscordEnv)
    (h : env.channels.contains channelId = false
      ∨ env.sendResult batch.batch_number = none) :
    postBatchToDiscord db batch channelId env = (db, none) := by
  rcases h with h | h
  · unfold postBatchToDiscord
    rw [h]
    rfl
  · unfold postBatchToDiscord
    rw [h]
    cases hc : env.channels.contains channelId
    · rfl
    · rfl

/-! ## Concrete fixtures for witnesses and failing inputs -/

/-- A concrete posted listing. -/
def listingA : Listing :=
  { id := "A"
    type := ListingType.sell
    user_id := "u1"
    status := "active"
    description := none
    created_at := "2025-01-01T00:00:00Z"
    updated_at := "2025-01-01T00:00:00Z"
    selling := { id := some "iron-scrap", amount := some 3, name := "Iron Scrap",
                 icon := "https://cdn.example/iron.webp", rarity := some "common" }
    buying := seedsItemSide 120
    user_profile := { full_name := "Alice A", username := "alice#1",
                      avatar_url := none, embark_id := "alice-e#1" } }

/-- A second listing posted in the same message. -/
def listingB : Listing := { listingA with id := "B" }

/-- The current fetch's copy of `listingA`, now in progress. -/
def listingA2 : Listing :=
  { listingA with status := "in-progress", updated_at := "2025-01-01T01:00:00Z" }

/-- Store in which `listingA` and `listingB` were both delivered in one
message `M1` (positions 1 and 2 of batch 1). -/
def dbC3 : DbState :=
  { listings := [{ listing := listingA, posted_to_discord := true },
                 { listing := listingB, posted_to_discord := true }]
    posted := [{ listing_id := "A", message_id := "M1", channel_id := "CH",
                 batch_number := 1, batch_position := 1 },
               { listing_id := "B", message_id := "M1", channel_id := "CH",
                 batch_number := 1, batch_position := 2 }] }

/-- Discord environment in which channel `CH` and message `M1` exist. -/
def envC3 : DiscordEnv :=
  { channels := ["CH"], messages := ["M1"], sendResult := fun _ => none }

/-- The fetch for the status-change scenario: `A` flipped to
in-progress, `B` unchanged. -/
def fetchedC3 : List Listing := [listingA2, listingB]

/-- C3 (code bug): with `A` and `B` posted in one message and only
`A`'s status changed, the scan issues exactly one edit for that message
and the persisted new status appears in it, but the regenerated
content holds only the changed listing `A` — the unchanged `B`,
originally in the same message, is dropped, contradicting the claim
that the edit contains all listings originally posted in the
message. -/
theorem checkStatusChanges_drops_unchanged :
    ((checkStatusChanges dbC3 fetchedC3 envC3).2).map
        (fun e => (e.message_id, e.listings.map (fun l => (l.id, l.status))))
      = [("M1", [("A", "in-progress")])]
    ∧ (dbC3.posted.filter (fun p => p.message_id == "M1")).map (fun p => p.listing_id)
      = ["A", "B"]
    ∧ ((checkStatusChanges dbC3 fetchedC3 envC3).2).map
        (fun e => e.listings.map (fun l => l.id))
      ≠ [(dbC3.posted.filter (fun p => p.message_id == "M1")).map (fun p => p.listing_id)] :=
  ⟨rfl, rfl, by decide⟩

/-- An empty store. -/
def emptyDb : DbState := { listings := [], posted := [] }

/-- A world whose previous cycle is still running. -/
def worldBusy : World :=
  { db := dbC3, isProcessing := true, editsSent := [], batchesSent := [] }

/-- The same world at idle. -/
def worldIdle : World := { worldBusy with isProcessing := false }

/-- A tick input whose fetch fails. -/
def inpFetchError : PollInput :=
  { fetchResult := Except.error "ECONNRESET", configChannelId := "CH", env := envC3 }

/-- Witness for C6: the busy world absorbs a tick unchanged. -/
theorem pollListings_skips_when_processing_witness :
    worldBusy.isProcessing = true ∧ pollListings worldBusy inpFetchError = worldBusy :=
  ⟨rfl, pollListings_skips_when_processing worldBusy inpFetchError rfl⟩

/-- Witness for C7: an idle world runs a cycle whose fetch throws and
comes back idle and unchanged. -/
theorem pollListings_always_resets_witness :
    worldIdle.isProcessing = false
    ∧ (pollListings worldIdle inpFetchError).isProcessing = false
    ∧ pollListings worldIdle inpFetchError = worldIdle :=
  ⟨rfl, (pollListings_always_resets worldIdle inpFetchError rfl).1,
    (pollListings_always_resets worldIdle inpFetchError rfl).2 "ECONNRESET" rfl⟩

/-- A batch wrapping the two concrete listings (unposted). -/
def batchAB : ListingBatch := { batch_number := 1, listings := [listingA, listingB] }

/-- Store holding `A` and `B` fetched but not yet posted. -/
def dbUnposted : DbState :=
  { listings := [{ listing := listingA, posted_to_discord := false },
                 { listing := listingB, posted_to_discord := false }]
    posted := [] }

/-- Witness for C8: with the target channel missing, posting the batch
writes nothing and reports `null`. -/
theorem postBatchToDiscord_failure_writes_nothing_witness :
    (envC3.channels.contains "OTHER" = false
      ∨ envC3.sendResult batchAB.batch_number = none)
    ∧ postBatchToDiscord dbUnposted batchAB "OTHER" envC3 = (dbUnposted, none) :=
  ⟨Or.inl rfl,
    postBatchToDiscord_failure_writes_nothing dbUnposted batchAB "OTHER" envC3 (Or.inl rfl)⟩

/-! ## Lemmas about decimal rendering, parsing and splitting, leading
to the button custom-id round trip (C10) -/

theorem digitChar_isDigit {n : Nat} (h : n < 10) : (digitChar n).isDigit = true := by
  interval_cases n <;> decide

theorem digitVal_digitChar {n : Nat} (h : n < 10) : digitVal (digitChar n) = n := by
  interval_cases n <;> decide

theorem natToChars_all_digits (n : Nat) : ∀ c ∈ natToChars n, c.isDigit = true := by
  induction n using natToChars.induct with
  | case1 n h =>
    intro c hc
    rw [natToChars, if_pos h] at hc
    simp only [List.mem_singleton] at hc
    subst hc
    exact digitChar_isDigit h
  | case2 n h ih =>
    intro c hc
    rw [natToChars, if_neg h] at hc
    rcases List.mem_append.mp hc with h1 | h1
    · exact ih c h1
    · simp only [List.mem_singleton] at h1
      subst h1
      exact digitChar_isDigit (Nat.mod_lt n (by omega))

theorem natToChars_ne_nil (n : Nat) : natToChars n ≠ [] := by
  rw [natToChars]
  split
  · simp
  · simp

theorem colon_not_mem_natToChars (n : Nat) : ':' ∉ natToChars n := by
  intro hmem
  have := natToChars_all_digits n ':' hmem
  simp at this

theorem parseDigitsAcc_append (l1 l2 : List Char) (h : ∀ c ∈ l1, c.isDigit = true) :
    ∀ acc, parseDigitsAcc acc (l1 ++ l2) = parseDigitsAcc (parseDigitsAcc acc l1) l2 := by
  induction l1 with
  | nil => intro acc; rfl
  | cons c cs ih =>
    intro acc
    have hc : c.isDigit = true := h c (by simp)
    rw [List.cons_append]
    simp only [parseDigitsAcc, if_pos hc]
    exact ih (fun d hd => h d (by simp [hd])) _

theorem parseDigitsAcc_natToChars (n : Nat) :
    ∀ acc, parseDigitsAcc acc (natToChars n) = acc * 10 ^ (natToChars n).length + n := by
  induction n using natToChars.induct with
  | case1 n h =>
    intro acc
    rw [natToChars, if_pos h]
    simp only [parseDigitsAcc, if_pos (digitChar_isDigit h), digitVal_digitChar h,
      List.length_singleton, pow_one]
  | case2 n h ih =>
    intro acc
    have hm : n % 10 < 10 := Nat.mod_lt n (by omega)
    rw [natToChars, if_neg h,
      parseDigitsAcc_append _ _ (natToChars_all_digits (n / 10)), ih]
    simp only [parseDigitsAcc, if_pos (digitChar_isDigit hm), digitVal_digitChar hm,
      List.length_append, List.length_singleton]
    have hdm : 10 * (n / 10) + n % 10 = n := Nat.div_add_mod n 10
    have hexp : (acc * 10 ^ (natToChars (n / 10)).length + n / 10) * 10 + n % 10
        = acc * (10 ^ (natToChars (n / 10)).length * 10) + (10 * (n / 10) + n % 10) := by
      ring
    rw [pow_succ, hexp, hdm]

theorem jsParseInt_natToChars (n : Nat) : jsParseInt (natToChars n) = some (n : Int) := by
  cases hn : natToChars n with
  | nil => exact absurd hn (natToChars_ne_nil n)
  | cons c rest =>
    have hc : c.isDigit = true :=
      natToChars_all_digits n c (by rw [hn]; exact List.mem_cons_self c rest)
    have hminus : ¬(c = '-') := by intro e; rw [e] at hc; simp at hc
    have hplus : ¬(c = '+') := by intro e; rw [e] at hc; simp at hc
    simp only [jsParseInt, if_neg hminus, if_neg hplus, parseLeadingNat, if_pos hc]
    rw [← hn, parseDigitsAcc_natToChars]
    simp

theorem splitOnChar_ne_nil (sep : Char) (l : List Char) : splitOnChar sep l ≠ [] := by
  cases l with
  | nil => simp [splitOnChar]
  | cons c rest =>
    rw [splitOnChar]
    split <;> simp

theorem splitOnChar_no_sep (sep : Char) (l : List Char) (h : sep ∉ l) :
    splitOnChar sep l = [l] := by
  induction l with
  | nil => rfl
  | cons c cs ih =>
    have hc : ¬(c = sep) := by intro e; exact h (by simp [e])
    have hcs : sep ∉ cs := fun m => h (List.mem_cons_of_mem _ m)
    rw [splitOnChar]
    rw [if_neg hc, ih hcs]
    rfl

theorem splitOnChar_append (sep : Char) (l rest : List Char) (h : sep ∉ l) :
    splitOnChar sep (l ++ sep :: rest) = l :: splitOnChar sep rest := by
  induction l with
  | nil =>
    rw [List.nil_append, splitOnChar]
    rw [if_pos rfl]
  | cons c cs ih =>
    have hc : ¬(c = sep) := by intro e; exact h (by simp [e])
    have hcs : sep ∉ cs := fun m => h (List.mem_cons_of_mem _ m)
    rw [List.cons_append, splitOnChar]
    rw [if_neg hc, ih hcs]
    rfl

theorem parseButtonCustomId_buttonCustomId (id : List Char) (pos : Nat)
    (h : ':' ∉ id) :
    parseButtonCustomId (buttonCustomId id pos)
      = some { action := "buy".toList, listing_id := id,
               batch_position := some (pos : Int) } := by
  have hbuy : (':' : Char) ∉ "buy".toList := by decide
  have hsplit : splitOnChar ':' (buttonCustomId id pos)
      = ["buy".toList, id, natToChars pos] := by
    rw [buttonCustomId, splitOnChar_append ':' _ _ hbuy,
      splitOnChar_append ':' _ _ h, splitOnChar_no_sep ':' _ (colon_not_mem_natToChars pos)]
  rw [parseButtonCustomId]
  simp only [hsplit]
  rw [if_pos (by constructor <;> rfl)]
  simp [jsParseInt_natToChars]

theorem createBatchButtonIdsAux_getD (listings : List Listing) :
    ∀ k i, i < listings.length →
      (createBatchButtonIdsAux listings k).getD i []
        = buttonCustomId ((listings.getD i default).id.toList) (k + i) := by
  induction listings with
  | nil => intro k i h; simp at h
  | cons l rest ih =>
    intro k i h
    cases i with
    | zero => simp [createBatchButtonIdsAux]
    | succ i =>
      have h' : i < rest.length := by simpa using h
      simp only [createBatchButtonIdsAux, List.getD_cons_succ]
      rw [ih (k + 1) i h']
      have : k + 1 + i = k + (i + 1) := by omega
      rw [this]

/-- C10: the custom id `buy:listingId:position` generated by
`createBatchButtons` for the listing at (1-based) position `i + 1`
parses back to `action = buy`, the listing's id and the position,
provided the listing id contains no `:`; and `parseButtonCustomId`
returns null for every string that does not split on `:` into exactly
three parts with first part `buy`. -/
theorem parseButtonCustomId_roundtrip (batch : ListingBatch) (i : Nat)
    (hi : i < batch.listings.length)
    (hid : ':' ∉ (batch.listings.getD i default).id.toList) :
    parseButtonCustomId ((createBatchButtonIds batch).getD i [])
        = some { action := "buy".toList
                 listing_id := (batch.listings.getD i default).id.toList
                 batch_position := some ((i + 1 : Nat) : Int) }
    ∧ ∀ s, ¬((splitOnChar ':' s).length = 3
          ∧ (splitOnChar ':' s).getD 0 [] = "buy".toList) →
        parseButtonCustomId s = none := by
  constructor
  · rw [createBatchButtonIds, createBatchButtonIdsAux_getD batch.listings 1 i hi]
    have h1i : 1 + i = i + 1 := by omega
    rw [h1i, parseButtonCustomId_buttonCustomId _ _ hid]
  · intro s hns
    rw [parseButtonCustomId]
    exact if_neg hns

/-- Witness for C10 at position 1 of the concrete batch. -/
theorem parseButtonCustomId_roundtrip_witness :
    (0 < batchAB.listings.length
      ∧ ':' ∉ (batchAB.listings.getD 0 default).id.toList)
    ∧ parseButtonCustomId ((createBatchButtonIds batchAB).getD 0 [])
        = some { action := "buy".toList
                 listing_id := (batchAB.listings.getD 0 default).id.toList
                 batch_position := some ((0 + 1 : Nat) : Int) } :=
  ⟨⟨by decide, by decide⟩,
    (parseButtonCustomId_roundtrip batchAB 0 (by decide) (by decide)).1⟩

end MetaApp
